import Mathlib

/-!
Verification of the multi-step query agentic RAG pipeline
(`src/agents.py`, `src/vector_store.py`, `src/document_processor.py`).

The pipeline is a four-stage linear workflow over a shared `AgentState`:
`_analyze_query → _retrieve_context → _check_for_tables → _generate_response`,
exposed through `RAGAgent.process_question`.  The language-model client, the
JSON library and the FAISS index are external collaborators; they are embedded
as oracles (`LLMOutcome`, `ParseResult`, `FAISSIndex.rank`), while every piece
of control flow in the code of the repository itself is translated directly.
-/

namespace RAG

/-- A retrieved document chunk (a langchain `Document`): `page_content` plus the
`source` metadata set by `DocumentProcessor.process_documents`.  Python compares
`Document` values structurally (pydantic field equality), which `DecidableEq`
mirrors. -/
structure Chunk where
  page_content : String
  source : String
deriving DecidableEq, Repr

/-- A conversation message; only the `content` field is relevant
(the `AIMessage(content=...)` values appended by `_generate_response`). -/
structure Message where
  content : String
deriving DecidableEq, Repr

/-- The LangGraph state (the `AgentState` TypedDict in `src/agents.py`). -/
structure AgentState where
  messages : List Message
  context : List Chunk
  question : String
  search_query : String
deriving DecidableEq, Repr

/-- Python exceptions that can cross stage boundaries in this code base.
`indexNotInitialized` is the `ValueError` ("Vector store not found. Please run
ingest_docs.py first.") raised by `VectorStoreManager.load_vector_store`;
`emptyMessages` is the `IndexError` that the final `messages[-1]` lookup of
`process_question` would raise on an empty message list. -/
inductive RAGError where
  | indexNotInitialized
  | emptyMessages
deriving DecidableEq, Repr

/-- Outcome of one language-model invocation (`self.llm.invoke(...)`), the
external collaborator of spec section 6: the call may raise, may return a null
object, may return an object without a `content` attribute, or returns an
object carrying a content string (possibly empty). -/
inductive LLMOutcome where
  | raises
  | noResponse
  | missingContent
  | content (s : String)
deriving DecidableEq, Repr

/-- Outcome of `json.loads(analysis.content)` followed by the
`analysis_data["search_query"]` lookup in `_analyze_query` (the `json` library
is external).  `parseError` is a `json.JSONDecodeError`; `parsedNoKey` means
the JSON parsed but the `"search_query"` lookup raised (`KeyError` or
`TypeError`); `parsed sq` means the lookup yielded the string `sq`. -/
inductive ParseResult where
  | parseError
  | parsedNoKey
  | parsed (sq : String)
deriving DecidableEq, Repr

/-- The loaded FAISS index (external collaborator): `rank q` is the full list of
stored chunks ordered by descending similarity to `q`;
`similarity_search(q, k)` returns its first `k` elements. -/
structure FAISSIndex where
  rank : String → List Chunk

/-- State of a `VectorStoreManager`: the lazily-loaded index
(`self.vector_store`, initially `None`), whether `self.index_path.exists()`,
and the index that `FAISS.load_local` would produce from disk. -/
structure VectorStoreManager where
  vector_store : Option FAISSIndex
  index_path_exists : Bool
  on_disk : FAISSIndex

/-- Embeds `VectorStoreManager.load_vector_store`: raises the "Vector store not
found" `ValueError` when the index path does not exist, otherwise loads the
on-disk index into `self.vector_store`. -/
def VectorStoreManager.load_vector_store (vsm : VectorStoreManager) :
    Except RAGError VectorStoreManager :=
  if vsm.index_path_exists then
    .ok { vsm with vector_store := some vsm.on_disk }
  else
    .error .indexNotInitialized

/-- The index that `VectorStoreManager.search` ends up querying: the
already-loaded one, or the result of the lazy `load_vector_store` call guarded
by `if not self.vector_store`. -/
def VectorStoreManager.getStore (vsm : VectorStoreManager) :
    Except RAGError FAISSIndex :=
  match vsm.vector_store with
  | some idx => .ok idx
  | none =>
      match vsm.load_vector_store with
      | .ok vsm' =>
          match vsm'.vector_store with
          | some idx => .ok idx
          | none => .ok vsm'.on_disk
      | .error e => .error e

/-- Embeds `VectorStoreManager.search(query, k)`: lazily load the store if
needed (a load failure propagates — the load happens before the inner `try`),
then return `similarity_search(query, k)`, i.e. the top `k` ranked chunks. -/
def VectorStoreManager.search (vsm : VectorStoreManager) (query : String)
    (k : Nat) : Except RAGError (List Chunk) :=
  match vsm.getStore with
  | .ok idx => .ok ((idx.rank query).take k)
  | .error e => .error e

/-- Whether a `search` call can succeed: the store is already loaded or the
index path exists on disk. -/
def VectorStoreManager.available (vsm : VectorStoreManager) : Bool :=
  vsm.vector_store.isSome || vsm.index_path_exists

/-- Characters of a string after `str.lower()`. -/
def lowerChars (s : String) : List Char := s.data.map Char.toLower

/-- Whether the first list is a character-wise prefix of the second. -/
def isPrefixL : List Char → List Char → Bool
  | [], _ => true
  | _ :: _, [] => false
  | a :: as, b :: bs => a == b && isPrefixL as bs

/-- Whether `pat` occurs as a contiguous sublist, i.e. the Python expression
`pat in s` on strings. -/
def isInfixL (pat : List Char) : List Char → Bool
  | [] => isPrefixL pat []
  | s@(_ :: rest) => isPrefixL pat s || isInfixL pat rest

/-- The Python test `"table" in chunk.page_content.lower()`. -/
def hasTableMarker (c : Chunk) : Bool :=
  isInfixL "table".data (lowerChars c.page_content)

/-- Embeds `DocumentProcessor.find_table_reference(chunk, all_chunks)`: when
`chunk` mentions "table" (case-insensitively), collect every *other* chunk of
`all_chunks` that also mentions "table"; otherwise return nothing. -/
def find_table_reference (chunk : Chunk) (all_chunks : List Chunk) :
    List Chunk :=
  if hasTableMarker chunk then
    all_chunks.filter (fun other => other ≠ chunk && hasTableMarker other)
  else
    []

/-- Embeds `RAGAgent._analyze_query`: invoke the LLM on the analysis prompt and
parse its JSON answer.  A `JSONDecodeError` hits the inner `except` clause and
falls back to the question; every other failure (the invoke raising, a null
response or one without `.content` making the `analysis.content` access raise,
or the `"search_query"` lookup raising) hits the outer `except Exception`
clause, which also falls back to the question.  On success the parsed value is
stored verbatim, with no emptiness check. -/
def analyze_query (llmA : LLMOutcome) (parse : String → ParseResult)
    (st : AgentState) : AgentState :=
  match llmA with
  | .raises => { st with search_query := st.question }
  | .noResponse => { st with search_query := st.question }
  | .missingContent => { st with search_query := st.question }
  | .content c =>
      match parse c with
      | .parseError => { st with search_query := st.question }
      | .parsedNoKey => { st with search_query := st.question }
      | .parsed sq => { st with search_query := sq }

/-- Embeds `RAGAgent._retrieve_context`: search the vector store with the
current `search_query` and `k = 3`; on success store the results in `context`,
on failure log and re-raise (the bare `raise` re-raises the same exception
unmodified). -/
def retrieve_context (vsm : VectorStoreManager) (st : AgentState) :
    Except RAGError AgentState :=
  match vsm.search st.search_query 3 with
  | .ok ctx => .ok { st with context := ctx }
  | .error e => .error e

/-- One step of the `for chunk in additional_context` loop of
`_check_for_tables`: `if chunk not in context: context.append(chunk)`. -/
def appendIfAbsent (ctx : List Chunk) (c : Chunk) : List Chunk :=
  if ctx.contains c then ctx else ctx ++ [c]

/-- Embeds `RAGAgent._check_for_tables`: collect
`find_table_reference(chunk, context)` for every chunk of the current context
into `additional_context`, then append each collected chunk to the context
unless it is already present (structural membership test via `in`). -/
def check_for_tables (st : AgentState) : AgentState :=
  let context := st.context
  let additional_context :=
    context.foldl (fun acc chunk => acc ++ find_table_reference chunk context) []
  let context := additional_context.foldl appendIfAbsent context
  { st with context := context }

/-- The fixed message substituted when the response content of the model is the
empty string (the `if not response.content` branch of `_generate_response`). -/
def emptyContentFallback : String :=
  "I apologize, but I couldn't generate a response based on the available context. Please try rephrasing your question or provide more specific details."

/-- The fixed message appended by the `except Exception` handler of
`_generate_response`. -/
def errorFallback : String :=
  "I encountered an error while processing your question. Please try again or rephrase your question."

/-- Python exceptions arising inside the `try` block of `_generate_response`:
the LLM invocation raising, or one of the two explicit `ValueError` raises
guarding a null response object and a response without a `content`
attribute. -/
inductive GenException where
  | modelError
  | valueErrorNoResponse
  | valueErrorMissingContent
deriving DecidableEq, Repr

/-- The `try` body of `RAGAgent._generate_response` up to the choice of
`response_content`: raise on invoke failure, raise `ValueError` on a null
response or a response without `content`, substitute `emptyContentFallback`
for empty content, otherwise use the content verbatim. -/
def generate_try_body (llmG : LLMOutcome) : Except GenException String :=
  match llmG with
  | .raises => .error .modelError
  | .noResponse => .error .valueErrorNoResponse
  | .missingContent => .error .valueErrorMissingContent
  | .content c => .ok (if c = "" then emptyContentFallback else c)

/-- Embeds `RAGAgent._generate_response`: run the `try` body; on success append
an `AIMessage` with the chosen content, and on *any* exception the
`except Exception` handler appends the fixed `errorFallback` message instead
(the exception is swallowed, never re-raised). -/
def generate_response (llmG : LLMOutcome) (st : AgentState) : AgentState :=
  match generate_try_body llmG with
  | .ok rc => { st with messages := st.messages ++ [⟨rc⟩] }
  | .error _ => { st with messages := st.messages ++ [⟨errorFallback⟩] }

/-- Embeds `RAGAgent.process_question`: build the initial state, run the four
workflow nodes in order (`analyze_query → retrieve_context → check_for_tables
→ generate_response`; only retrieval can raise, and the handler of
`process_question` itself re-raises), and return
`final_state["messages"][-1].content` (an `IndexError` — `emptyMessages` — if
no message was ever appended). -/
def process_question (llmA : LLMOutcome) (parse : String → ParseResult)
    (vsm : VectorStoreManager) (llmG : LLMOutcome) (question : String) :
    Except RAGError String :=
  let st0 : AgentState :=
    { messages := [], context := [], question := question, search_query := "" }
  let st1 := analyze_query llmA parse st0
  match retrieve_context vsm st1 with
  | .error e => .error e
  | .ok st2 =>
      let st3 := check_for_tables st2
      let st4 := generate_response llmG st3
      match st4.messages.getLast? with
      | some m => .ok m.content
      | none => .error .emptyMessages

/-- The analysis stage failed to produce a structured search query: the model
call raised or returned an unusable object, or its content did not parse into
a JSON object carrying a usable `"search_query"` value. -/
def analysisFailed (llmA : LLMOutcome) (parse : String → ParseResult) : Prop :=
  match llmA with
  | .content c =>
      match parse c with
      | .parsed _ => False
      | _ => True
  | _ => True

/-- The answer content chosen by `_generate_response`: the content of the `try`
body on success, the fixed error-fallback message when the handler fires. -/
def genContent (llmG : LLMOutcome) : String :=
  match generate_try_body llmG with
  | .ok rc => rc
  | .error _ => errorFallback

/-- Concrete chunk from Scenario B of the spec. -/
def exChunkA : Chunk :=
  ⟨"Anchorage dues are $5/GT, see Table 1 for details.", "tariff.pdf"⟩

/-- Second concrete chunk from Scenario B of the spec. -/
def exChunkB : Chunk := ⟨"Table 1: $5 per gross ton.", "tariff.pdf"⟩

/-- A concrete two-chunk index ranking both chunks for every query. -/
def exIndex : FAISSIndex := ⟨fun _ => [exChunkA, exChunkB]⟩

/-- A manager whose index path exists (store not yet loaded). -/
def exVSM : VectorStoreManager := ⟨none, true, exIndex⟩

/-- A manager whose index path is missing. -/
def exVSMNoIndex : VectorStoreManager := ⟨none, false, exIndex⟩

/-- A JSON-parse oracle that always reports a decode error. -/
def exParseFail : String → ParseResult := fun _ => .parseError

/-- The structured analysis answer of Scenario C of the spec. -/
def exAnalysisJson : String :=
  "\x7b\"is_tariff_related\": true, \"tariff_name\": \"anchorage dues\", \"search_query\": \"anchorage dues cost\"\x7d"

/-- A parse oracle that parses `exAnalysisJson` to its `search_query` value. -/
def exParseOk : String → ParseResult :=
  fun s => if s = exAnalysisJson then .parsed "anchorage dues cost" else .parseError

/-- A well-formed structured analysis answer whose `search_query` value is the
empty string. -/
def exEmptyJson : String :=
  "\x7b\"is_tariff_related\": false, \"tariff_name\": null, \"search_query\": \"\"\x7d"

/-- A parse oracle that parses `exEmptyJson` to the empty search query, exactly
as `json.loads` followed by the `"search_query"` lookup would. -/
def exParseEmpty : String → ParseResult :=
  fun s => if s = exEmptyJson then .parsed "" else .parseError

/-- Successful searches return at most `k` chunks (`List.take`). -/
theorem search_ok_length_le (vsm : VectorStoreManager) (q : String) (k : Nat)
    (cs : List Chunk) (h : vsm.search q k = .ok cs) : cs.length ≤ k := by
  unfold VectorStoreManager.search at h
  cases hg : vsm.getStore with
  | ok idx =>
      rw [hg] at h
      cases h
      simp [List.length_take]
  | error e => rw [hg] at h; cases h

/-- When the store is loaded or the index path exists, `search` succeeds. -/
theorem search_ok_of_available (vsm : VectorStoreManager) (q : String) (k : Nat)
    (h : vsm.available = true) : ∃ cs, vsm.search q k = .ok cs := by
  unfold VectorStoreManager.available at h
  unfold VectorStoreManager.search VectorStoreManager.getStore
  cases hv : vsm.vector_store with
  | some idx => exact ⟨_, rfl⟩
  | none =>
      rw [hv] at h
      simp only [Option.isSome_none, Bool.false_or] at h
      unfold VectorStoreManager.load_vector_store
      rw [h]
      exact ⟨_, rfl⟩

/-- When the store is not loaded and the index path is missing, `search` raises
the missing-index error. -/
theorem search_error_of_unavailable (vsm : VectorStoreManager) (q : String)
    (k : Nat) (h : vsm.available = false) :
    vsm.search q k = .error .indexNotInitialized := by
  unfold VectorStoreManager.available at h
  simp only [Bool.or_eq_false_iff] at h
  obtain ⟨h1, h2⟩ := h
  cases hv : vsm.vector_store with
  | some idx => rw [hv] at h1; simp at h1
  | none =>
      simp [VectorStoreManager.search, VectorStoreManager.getStore,
        VectorStoreManager.load_vector_store, hv, h2]

/-- Every chunk returned by `find_table_reference` is taken from the list it
was given. -/
theorem mem_of_mem_find_table_reference {c' c : Chunk} {l : List Chunk}
    (h : c' ∈ find_table_reference c l) : c' ∈ l := by
  unfold find_table_reference at h
  split at h
  · exact (List.mem_filter.mp h).1
  · exact absurd h (List.not_mem_nil c')

/-- Every chunk in the collected `additional_context` accumulator comes from
the accumulator seed or from the context being scanned. -/
theorem mem_ctx_of_mem_collect (ctx : List Chunk) :
    ∀ (l init : List Chunk) (c : Chunk),
      c ∈ l.foldl (fun acc chunk => acc ++ find_table_reference chunk ctx) init →
      c ∈ init ∨ c ∈ ctx := by
  intro l
  induction l with
  | nil => intro init c h; exact Or.inl h
  | cons a as ih =>
      intro init c h
      simp only [List.foldl_cons] at h
      rcases ih (init ++ find_table_reference a ctx) c h with h' | h'
      · rcases List.mem_append.mp h' with h'' | h''
        · exact Or.inl h''
        · exact Or.inr (mem_of_mem_find_table_reference h'')
      · exact Or.inr h'

/-- Appending a list of already-present chunks with the dedup-append loop
leaves the context unchanged. -/
theorem foldl_appendIfAbsent_of_subset (adds : List Chunk) :
    ∀ ctx : List Chunk, (∀ c ∈ adds, c ∈ ctx) →
      adds.foldl appendIfAbsent ctx = ctx := by
  induction adds with
  | nil => intro ctx _; rfl
  | cons a as ih =>
      intro ctx h
      have ha : ctx.contains a = true :=
        List.elem_eq_true_of_mem (h a (List.mem_cons_self a as))
      simp only [List.foldl_cons, appendIfAbsent, ha, if_pos]
      exact ih ctx (fun c hc => h c (List.mem_cons_of_mem a hc))

/-- The table-expansion stage leaves the context field unchanged: every
candidate it collects already lives in the context. -/
theorem check_for_tables_context (st : AgentState) :
    (check_for_tables st).context = st.context := by
  show (st.context.foldl
      (fun acc chunk => acc ++ find_table_reference chunk st.context) []).foldl
      appendIfAbsent st.context = st.context
  apply foldl_appendIfAbsent_of_subset
  intro c hc
  rcases mem_ctx_of_mem_collect st.context st.context [] c hc with h | h
  · exact absurd h (List.not_mem_nil c)
  · exact h

/-- The table-expansion stage is the identity on the whole state. -/
theorem check_for_tables_eq_self (st : AgentState) : check_for_tables st = st := by
  have h := check_for_tables_context st
  cases st with
  | mk m c q s =>
      unfold check_for_tables at h ⊢
      simp only at h ⊢
      rw [h]

/-- The table-expansion stage never touches the message list. -/
theorem check_for_tables_messages (st : AgentState) :
    (check_for_tables st).messages = st.messages := rfl

/-- Query analysis never touches the message list. -/
theorem analyze_query_messages (llmA : LLMOutcome) (parse : String → ParseResult)
    (st : AgentState) : (analyze_query llmA parse st).messages = st.messages := by
  cases llmA with
  | content c => cases hp : parse c <;> simp [analyze_query, hp]
  | raises => rfl
  | noResponse => rfl
  | missingContent => rfl

/-- The generation stage appends exactly one message, carrying `genContent`. -/
theorem generate_response_messages (llmG : LLMOutcome) (st : AgentState) :
    (generate_response llmG st).messages = st.messages ++ [⟨genContent llmG⟩] := by
  unfold generate_response genContent
  cases generate_try_body llmG <;> rfl

/-- The chosen answer content is never the empty string: a non-empty model
answer is kept verbatim and both fallback messages are non-empty. -/
theorem genContent_ne_empty (llmG : LLMOutcome) : genContent llmG ≠ "" := by
  unfold genContent generate_try_body
  cases llmG with
  | content c =>
      by_cases hc : c = ""
      · simp only [hc, if_pos]
        decide
      · simp [hc]
  | raises => decide
  | noResponse => decide
  | missingContent => decide

/-- With an available index, `process_question` returns exactly the content
chosen by the generation stage. -/
theorem process_question_ok_eq (llmA : LLMOutcome) (parse : String → ParseResult)
    (vsm : VectorStoreManager) (llmG : LLMOutcome) (q : String)
    (h : vsm.available = true) :
    process_question llmA parse vsm llmG q = .ok (genContent llmG) := by
  unfold process_question
  set st0 : AgentState :=
    { messages := [], context := [], question := q, search_query := "" } with hst0
  set st1 := analyze_query llmA parse st0 with hst1
  obtain ⟨cs, hcs⟩ := search_ok_of_available vsm st1.search_query 3 h
  unfold retrieve_context
  simp only []
  rw [hcs]
  simp only
  have hm3 : (generate_response llmG (check_for_tables { st1 with context := cs })).messages
      = [⟨genContent llmG⟩] := by
    rw [generate_response_messages, check_for_tables_messages]
    have : ({ st1 with context := cs } : AgentState).messages = st1.messages := rfl
    rw [this, hst1, analyze_query_messages]
    rfl
  rw [hm3]
  rfl

/-- On any analysis failure the search query falls back to the question. -/
theorem analyze_query_fallback_eq (llmA : LLMOutcome)
    (parse : String → ParseResult) (st : AgentState)
    (hfail : analysisFailed llmA parse) :
    (analyze_query llmA parse st).search_query = st.question := by
  cases llmA with
  | raises => rfl
  | noResponse => rfl
  | missingContent => rfl
  | content c =>
      cases hp : parse c with
      | parseError => simp [analyze_query, hp]
      | parsedNoKey => simp [analyze_query, hp]
      | parsed sq => simp only [analysisFailed, hp] at hfail

/-- Claim C1: for every question, when the vector index exists,
`process_question` returns (never raises) a non-empty string; the generation
stage appends exactly one message whose content is the model answer verbatim
or one of the two fixed non-empty fallback strings, and `process_question`
returns the content of the last appended message. -/
theorem claim1_process_question_total_nonempty (llmA : LLMOutcome)
    (parse : String → ParseResult) (vsm : VectorStoreManager)
    (llmG : LLMOutcome) (q : String) (h : vsm.available = true) :
    ∃ s, process_question llmA parse vsm llmG q = .ok s ∧ s ≠ "" ∧
      (∀ st, (generate_response llmG st).messages.length
        = st.messages.length + 1) ∧
      (s = errorFallback ∨ s = emptyContentFallback ∨ llmG = .content s) := by
  refine ⟨genContent llmG, process_question_ok_eq llmA parse vsm llmG q h,
    genContent_ne_empty llmG, ?_, ?_⟩
  · intro st
    rw [generate_response_messages]
    simp
  · unfold genContent generate_try_body
    cases llmG with
    | raises => left; rfl
    | noResponse => left; rfl
    | missingContent => left; rfl
    | content c =>
        by_cases hc : c = ""
        · right; left; simp [hc]
        · right; right; simp [hc]

/-- Witness for claim C1 at a concrete index, question and model answer. -/
theorem claim1_witness :
    exVSM.available = true ∧
    ∃ s, process_question .raises exParseFail exVSM
        (.content "The anchorage due is $5/GT.") "What is the anchorage due?"
        = .ok s ∧ s ≠ "" ∧
      (∀ st, (generate_response (.content "The anchorage due is $5/GT.") st).messages.length
        = st.messages.length + 1) ∧
      (s = errorFallback ∨ s = emptyContentFallback ∨
        (LLMOutcome.content "The anchorage due is $5/GT.") = .content s) :=
  ⟨by decide, claim1_process_question_total_nonempty .raises exParseFail exVSM
    (.content "The anchorage due is $5/GT.") "What is the anchorage due?" (by decide)⟩

/-- Claim C2: when the vector index is absent, retrieval raises the
missing-index error and it propagates through `process_question` unmodified —
no fallback answer is produced and no stage converts the error. -/
theorem claim2_index_missing_error (llmA : LLMOutcome)
    (parse : String → ParseResult) (vsm : VectorStoreManager)
    (llmG : LLMOutcome) (q : String) (h : vsm.available = false) :
    process_question llmA parse vsm llmG q = .error .indexNotInitialized := by
  unfold process_question retrieve_context
  simp only []
  rw [search_error_of_unavailable vsm _ 3 h]

/-- Witness for claim C2: Scenario A of the spec, with the index missing. -/
theorem claim2_witness :
    exVSMNoIndex.available = false ∧
    process_question .raises exParseFail exVSMNoIndex (.content "x")
      "What is the anchorage due?" = .error .indexNotInitialized :=
  ⟨by decide, claim2_index_missing_error .raises exParseFail exVSMNoIndex
    (.content "x") "What is the anchorage due?" (by decide)⟩

/-- Claim C3: for every non-empty question, if the analysis model call raises
or its content is not parseable as the expected structured JSON, the search
query after the analysis stage equals the original question exactly (and the
stage returns a state rather than propagating, so the pipeline continues). -/
theorem claim3_analysis_failure_fallback (llmA : LLMOutcome)
    (parse : String → ParseResult) (st : AgentState)
    (hq : st.question ≠ "") (hfail : analysisFailed llmA parse) :
    (analyze_query llmA parse st).search_query = st.question :=
  analyze_query_fallback_eq llmA parse st hfail

/-- Witness for claim C3: the model call raises on a concrete question. -/
theorem claim3_witness :
    (("What is the anchorage due?" : String) ≠ "") ∧
    analysisFailed .raises exParseFail ∧
    (analyze_query .raises exParseFail
      ⟨[], [], "What is the anchorage due?", ""⟩).search_query
      = "What is the anchorage due?" :=
  ⟨by decide, trivial,
    claim3_analysis_failure_fallback .raises exParseFail
      ⟨[], [], "What is the anchorage due?", ""⟩ (by decide) trivial⟩

/-- Claim C4: the cross-reference expansion stage is the identity on the
context field — candidates are collected only from chunks already in context
and each is appended only if absent, so nothing is ever added. -/
theorem claim4_expansion_identity_on_context (st : AgentState) :
    (check_for_tables st).context = st.context :=
  check_for_tables_context st

/-- Claim C5: expansion is idempotent — applying `check_for_tables` twice
yields the same state as applying it once, duplicates being identified by
structural chunk equality. -/
theorem claim5_expansion_idempotent (st : AgentState) :
    check_for_tables (check_for_tables st) = check_for_tables st := by
  rw [check_for_tables_eq_self (check_for_tables st)]

/-- Claim C6: retrieval width invariant — a successful search with width `k`
returns at most `k` chunks, and immediately after the retrieval stage (which
fixes `k = 3`) the context holds at most 3 chunks. -/
theorem claim6_retrieval_width (vsm : VectorStoreManager) (q : String)
    (k : Nat) (hk : 1 ≤ k) :
    (∀ cs, vsm.search q k = .ok cs → cs.length ≤ k) ∧
    (∀ st st', retrieve_context vsm st = .ok st' → st'.context.length ≤ 3) := by
  constructor
  · intro cs h
    exact search_ok_length_le vsm q k cs h
  · intro st st' h
    unfold retrieve_context at h
    cases hcs : vsm.search st.search_query 3 with
    | ok cs =>
        rw [hcs] at h
        cases h
        exact search_ok_length_le vsm st.search_query 3 cs hcs
    | error e => rw [hcs] at h; cases h

/-- Witness for claim C6 at the concrete two-chunk index with `k = 3`. -/
theorem claim6_witness :
    (1 ≤ 3) ∧
    ((∀ cs, exVSM.search "anchorage dues cost" 3 = .ok cs → cs.length ≤ 3) ∧
     (∀ st st', retrieve_context exVSM st = .ok st' → st'.context.length ≤ 3)) :=
  ⟨by decide, claim6_retrieval_width exVSM "anchorage dues cost" 3 (by decide)⟩

/-- Claim C7: when analysis succeeds with rewritten query `sq`, the retrieval
stage searches the index with `sq` — the search query field equals `sq` and
the context installed by retrieval is exactly the result of searching `sq`,
not the raw question. -/
theorem claim7_retrieval_uses_rewritten_query (parse : String → ParseResult)
    (c sq : String) (st : AgentState) (vsm : VectorStoreManager)
    (h : parse c = .parsed sq) :
    (analyze_query (.content c) parse st).search_query = sq ∧
    Except.map AgentState.context
        (retrieve_context vsm (analyze_query (.content c) parse st))
      = vsm.search sq 3 := by
  have hsq : (analyze_query (.content c) parse st).search_query = sq := by
    simp [analyze_query, h]
  refine ⟨hsq, ?_⟩
  unfold retrieve_context
  rw [hsq]
  cases hcs : vsm.search sq 3 with
  | ok cs => rfl
  | error e => rfl

/-- Witness for claim C7: Scenario C of the spec, where analysis rewrites the
question to "anchorage dues cost". -/
theorem claim7_witness :
    exParseOk exAnalysisJson = .parsed "anchorage dues cost" ∧
    ((analyze_query (.content exAnalysisJson) exParseOk
        ⟨[], [], "What is the anchorage due?", ""⟩).search_query
      = "anchorage dues cost" ∧
     Except.map AgentState.context
        (retrieve_context exVSM (analyze_query (.content exAnalysisJson) exParseOk
          ⟨[], [], "What is the anchorage due?", ""⟩))
      = exVSM.search "anchorage dues cost" 3) :=
  ⟨by decide, claim7_retrieval_uses_rewritten_query exParseOk exAnalysisJson
    "anchorage dues cost" ⟨[], [], "What is the anchorage due?", ""⟩ exVSM (by decide)⟩

/-- Counterexample to claim C8: a null model response does raise the
`ValueError` inside the generation stage, but with the index present
`process_question` returns the fixed error-fallback string — the failure is
converted into a fallback answer and never propagates to the caller,
contradicting the claim that it is caller-fatal. -/
theorem claim8_counterexample :
    generate_try_body .noResponse = .error .valueErrorNoResponse ∧
    process_question .raises exParseFail exVSM .noResponse
      "What is the anchorage due?" = .ok errorFallback :=
  ⟨rfl, rfl⟩

/-- Amended claim C8: a null or content-less model response raises a
`ValueError` inside the generation stage, but the handler of that stage
catches it and appends the fixed error-fallback message, so the caller
receives the fallback string instead of an exception. -/
theorem claim8_generation_error_contained (llmA : LLMOutcome)
    (parse : String → ParseResult) (vsm : VectorStoreManager) (q : String)
    (llmG : LLMOutcome) (h : vsm.available = true)
    (hg : llmG = .noResponse ∨ llmG = .missingContent) :
    (∃ e, generate_try_body llmG = .error e) ∧
    process_question llmA parse vsm llmG q = .ok errorFallback := by
  rcases hg with hg | hg
  · subst hg
    exact ⟨⟨.valueErrorNoResponse, rfl⟩, process_question_ok_eq llmA parse vsm _ q h⟩
  · subst hg
    exact ⟨⟨.valueErrorMissingContent, rfl⟩, process_question_ok_eq llmA parse vsm _ q h⟩

/-- Witness for the amended claim C8 at a concrete null-response run. -/
theorem claim8_witness :
    exVSM.available = true ∧
    (LLMOutcome.noResponse = .noResponse ∨ LLMOutcome.noResponse = .missingContent) ∧
    ((∃ e, generate_try_body .noResponse = .error e) ∧
     process_question .raises exParseFail exVSM .noResponse
       "What is the anchorage due?" = .ok errorFallback) :=
  ⟨by decide, Or.inl rfl,
    claim8_generation_error_contained .raises exParseFail exVSM
      "What is the anchorage due?" .noResponse (by decide) (Or.inl rfl)⟩

/-- Claim C9: when the model returns an empty content string, the generation
stage appends exactly the fixed insufficient-information message, which is
not the empty string. -/
theorem claim9_empty_content_fallback (st : AgentState) :
    (generate_response (.content "") st).messages
      = st.messages ++ [⟨emptyContentFallback⟩] ∧
    emptyContentFallback ≠ "" :=
  ⟨rfl, by decide⟩

/-- Counterexample to claim C10: for a non-empty question, a well-formed model
answer whose `search_query` value is the empty string is stored verbatim, so
the rewritten query after analysis is empty — the claimed non-emptiness
invariant fails on the success path. -/
theorem claim10_counterexample :
    (("What is the anchorage due?" : String) ≠ "") ∧
    (analyze_query (.content exEmptyJson) exParseEmpty
      ⟨[], [], "What is the anchorage due?", ""⟩).search_query = "" :=
  ⟨by decide, by rfl⟩

/-- Amended claim C10: after analysis of a non-empty question, on failure the
search query equals the original question verbatim (hence is non-empty), and
on success it equals the model-supplied value verbatim — which the code does
not check for non-emptiness, so it can be empty. -/
theorem claim10_search_query_amended (llmA : LLMOutcome)
    (parse : String → ParseResult) (st : AgentState) (hq : st.question ≠ "") :
    (analysisFailed llmA parse →
      (analyze_query llmA parse st).search_query = st.question ∧
      (analyze_query llmA parse st).search_query ≠ "") ∧
    (∀ c sq, llmA = .content c → parse c = .parsed sq →
      (analyze_query llmA parse st).search_query = sq) := by
  constructor
  · intro hfail
    refine ⟨analyze_query_fallback_eq llmA parse st hfail, ?_⟩
    rw [analyze_query_fallback_eq llmA parse st hfail]
    exact hq
  · intro c sq hc hp
    subst hc
    simp [analyze_query, hp]

/-- Witness for the amended claim C10 at a concrete failing analysis. -/
theorem claim10_witness :
    (("What is the anchorage due?" : String) ≠ "") ∧
    ((analysisFailed .raises exParseFail →
       (analyze_query .raises exParseFail
         ⟨[], [], "What is the anchorage due?", ""⟩).search_query
           = "What is the anchorage due?" ∧
       (analyze_query .raises exParseFail
         ⟨[], [], "What is the anchorage due?", ""⟩).search_query ≠ "") ∧
     (∀ c sq, LLMOutcome.raises = .content c → exParseFail c = .parsed sq →
       (analyze_query .raises exParseFail
         ⟨[], [], "What is the anchorage due?", ""⟩).search_query = sq)) :=
  ⟨by decide, claim10_search_query_amended .raises exParseFail
    ⟨[], [], "What is the anchorage due?", ""⟩ (by decide)⟩

end RAG
